import Mathlib

/-!
Verification of PyDrops (a Django blog application) against its
natural-language specification.

The development shallowly embeds the behaviour of
`src/blog/views.py` and `src/authuser/models.py`, together with the
Django library functions they call (`django.core.paginator.Paginator`,
`get_object_or_404`, `require_POST`, `BaseUserManager.normalize_email`,
`set_password`), as executable Lean functions.  Databases are lists,
exceptions are `Except`, and Python local variables that may be read
before assignment are `Option`.
-/

namespace PyDrops

/-! ## Python `int(str)` parsing

`django.core.paginator.Paginator.validate_number` converts the page token
with Python `int(...)`.  For a string, Python strips surrounding
whitespace, accepts an optional sign followed by one or more digits, and
rejects everything else. -/

/-- Python `str.strip()` on a character list: whitespace removed from both ends. -/
def pyStrip (l : List Char) : List Char :=
  ((l.dropWhile Char.isWhitespace).reverse.dropWhile Char.isWhitespace).reverse

/-- Value of a nonempty all-digit character list, `none` otherwise. -/
def digitsVal? (l : List Char) : Option Nat :=
  if l ≠ [] ∧ l.all Char.isDigit then
    some (l.foldl (fun a c => a * 10 + (c.toNat - 48)) 0)
  else none

/-- Python `int(s)` for a string `s`: `some n` on success, `none` when
Python would raise `ValueError` (empty, non-numeric, ...). -/
def pyParseInt? (s : String) : Option Int :=
  match pyStrip s.toList with
  | '-' :: rest => (digitsVal? rest).map (fun n => -(n : Int))
  | '+' :: rest => (digitsVal? rest).map (fun n => (n : Int))
  | l => (digitsVal? l).map (fun n => (n : Int))

/-! ## `django.core.paginator.Paginator`

Embedded at the settings used by the call site in `post_list`
(`Paginator(post_list, 3)`): `orphans = 0`, `allow_empty_first_page = True`. -/

/-- The page token handed to `paginator.page`: `request.GET.get('page', 1)`
yields the integer `1` when the parameter is absent and the raw string
otherwise. -/
inductive PageToken where
  | int (n : Int)
  | str (s : String)
deriving Repr, DecidableEq

inductive PageError where
  | pageNotAnInteger
  | emptyPage
deriving Repr, DecidableEq

structure Paginator (α : Type) where
  object_list : List α
  per_page : Nat
deriving Repr, DecidableEq

/-- `Paginator.count`: length of the underlying list. -/
def Paginator.count {α : Type} (pg : Paginator α) : Nat :=
  pg.object_list.length

/-- `Paginator.num_pages` with `orphans = 0`, `allow_empty_first_page = True`:
`ceil(max(1, count) / per_page)`. -/
def Paginator.num_pages {α : Type} (pg : Paginator α) : Nat :=
  (max 1 pg.count + (pg.per_page - 1)) / pg.per_page

/-- The `int(number)` step of `validate_number`. -/
def tokenInt? (t : PageToken) : Option Int :=
  match t with
  | .int n => some n
  | .str s => pyParseInt? s

/-- Range check of `Paginator.validate_number` after `int` conversion,
with `allow_empty_first_page = True`. -/
def checkRange (num_pages : Nat) (n : Int) : Except PageError Int :=
  if n < 1 then .error .emptyPage
  else if (num_pages : Int) < n then
    if n = 1 then .ok n else .error .emptyPage
  else .ok n

/-- `Paginator.validate_number`: `int(...)` conversion (raising
`PageNotAnInteger` on failure), then the range checks. -/
def Paginator.validate_number {α : Type} (pg : Paginator α) (t : PageToken) :
    Except PageError Int :=
  match tokenInt? t with
  | none => .error .pageNotAnInteger
  | some n => checkRange pg.num_pages n

/-- The slice `object_list[bottom:top]` computed by `Paginator.page` for a
validated page number: `bottom = (number-1)*per_page`,
`top = bottom + per_page` clamped to `count` (`orphans = 0`). -/
def Paginator.pageItems {α : Type} (pg : Paginator α) (number : Nat) : List α :=
  (pg.object_list.drop ((number - 1) * pg.per_page)).take
    ((if pg.count ≤ (number - 1) * pg.per_page + pg.per_page then pg.count
      else (number - 1) * pg.per_page + pg.per_page) - (number - 1) * pg.per_page)

/-- A delivered page: its number and its items. -/
structure PageResult (α : Type) where
  number : Nat
  object_list : List α
deriving Repr, DecidableEq

/-- `Paginator.page`: validate the token, then slice. -/
def Paginator.page {α : Type} (pg : Paginator α) (t : PageToken) :
    Except PageError (PageResult α) :=
  match pg.validate_number t with
  | .error e => .error e
  | .ok n => .ok ⟨n.toNat, pg.pageItems n.toNat⟩

/-- The pagination step of `post_list` (`src/blog/views.py` lines 20-31):
`paginator = Paginator(post_list, 3)`, `paginator.page(page_number)`, with
`PageNotAnInteger` handled by delivering page 1 and `EmptyPage` by
delivering the last page. -/
def post_list_paginate {α : Type} (post_list : List α) (page_number : PageToken) :
    Except PageError (PageResult α) :=
  let paginator : Paginator α := Paginator.mk post_list 3
  match paginator.page page_number with
  | .ok posts => .ok posts
  | .error .pageNotAnInteger => paginator.page (.int 1)
  | .error .emptyPage => paginator.page (.int (paginator.num_pages : Int))

/-! ### Pagination lemmas -/

theorem num_pages_pos {α : Type} (items : List α) :
    1 ≤ (Paginator.mk items 3).num_pages := by
  show 1 ≤ (max 1 (Paginator.mk items 3).count + (3 - 1)) / 3
  rw [Nat.le_div_iff_mul_le (by norm_num)]
  omega

theorem checkRange_ok (np : Nat) (n : Int) (h1 : 1 ≤ n) (h2 : n ≤ (np : Int)) :
    checkRange np n = .ok n := by
  unfold checkRange
  rw [if_neg (by omega), if_neg (by omega)]

theorem checkRange_over (np : Nat) (n : Int) (h0 : 1 ≤ np) (h2 : (np : Int) < n) :
    checkRange np n = .error .emptyPage := by
  unfold checkRange
  have hnp : (1 : Int) ≤ (np : Int) := by exact_mod_cast h0
  rw [if_neg (by omega), if_pos h2, if_neg (by omega)]

theorem validate_int_eq {α : Type} (pg : Paginator α) (n : Int) :
    pg.validate_number (.int n) = checkRange pg.num_pages n := by
  rfl

theorem validate_str_eq {α : Type} (pg : Paginator α) (s : String) (n : Int)
    (h : pyParseInt? s = some n) :
    pg.validate_number (.str s) = checkRange pg.num_pages n := by
  show (match pyParseInt? s with
    | none => Except.error PageError.pageNotAnInteger
    | some m => checkRange pg.num_pages m) = checkRange pg.num_pages n
  rw [h]

theorem page_of_validate {α : Type} (pg : Paginator α) (t : PageToken) (n : Int)
    (h : pg.validate_number t = .ok n) :
    pg.page t = .ok ⟨n.toNat, pg.pageItems n.toNat⟩ := by
  unfold Paginator.page
  rw [h]

theorem page_int_ok {α : Type} (pg : Paginator α) (n : Int)
    (h1 : 1 ≤ n) (h2 : n ≤ (pg.num_pages : Int)) :
    pg.page (.int n) = .ok ⟨n.toNat, pg.pageItems n.toNat⟩ :=
  page_of_validate pg (.int n) n
    ((validate_int_eq pg n).trans (checkRange_ok pg.num_pages n h1 h2))

theorem paginate_eq_match {α : Type} (items : List α) (t : PageToken) :
    post_list_paginate items t =
      match (Paginator.mk items 3).page t with
      | .ok posts => .ok posts
      | .error .pageNotAnInteger => (Paginator.mk items 3).page (.int 1)
      | .error .emptyPage =>
          (Paginator.mk items 3).page (.int ((Paginator.mk items 3).num_pages : Int)) := by
  rfl

theorem pageItems_eq {α : Type} (pg : Paginator α) (n : Nat) :
    pg.pageItems n = (pg.object_list.drop ((n - 1) * pg.per_page)).take pg.per_page := by
  unfold Paginator.pageItems
  by_cases hc : pg.count ≤ (n - 1) * pg.per_page + pg.per_page
  · rw [if_pos hc, List.take_eq_take]
    simp only [List.length_drop]
    unfold Paginator.count at hc ⊢
    omega
  · rw [if_neg hc]
    congr 1
    omega

/-- Out-of-range page number: `EmptyPage` is raised and caught, and the last
page is delivered. -/
theorem paginate_over {α : Type} (items : List α) (s : String) (p : Int)
    (hparse : pyParseInt? s = some p)
    (hover : ((Paginator.mk items 3).num_pages : Int) < p) :
    post_list_paginate items (.str s)
      = .ok ⟨(Paginator.mk items 3).num_pages,
             (Paginator.mk items 3).pageItems (Paginator.mk items 3).num_pages⟩ := by
  have hnp := num_pages_pos items
  have hval : (Paginator.mk items 3).validate_number (.str s) = .error .emptyPage :=
    (validate_str_eq _ s p hparse).trans
      (checkRange_over (Paginator.mk items 3).num_pages p hnp hover)
  have hpage : (Paginator.mk items 3).page (.str s) = .error .emptyPage := by
    unfold Paginator.page
    rw [hval]
  have hlast := page_int_ok (Paginator.mk items 3) ((Paginator.mk items 3).num_pages : Int)
    (by exact_mod_cast hnp) (le_refl _)
  rw [paginate_eq_match, hpage]
  simpa using hlast

/-- Non-numeric page token: `PageNotAnInteger` is raised and caught, and page 1
is delivered. -/
theorem paginate_nonint {α : Type} (items : List α) (s : String)
    (hparse : pyParseInt? s = none) :
    post_list_paginate items (.str s) = .ok ⟨1, items.take 3⟩ := by
  have hval : (Paginator.mk items 3).validate_number (.str s) = .error .pageNotAnInteger := by
    show (match pyParseInt? s with
      | none => Except.error PageError.pageNotAnInteger
      | some m => checkRange (Paginator.mk items 3).num_pages m)
      = Except.error PageError.pageNotAnInteger
    rw [hparse]
  have hpage : (Paginator.mk items 3).page (.str s) = .error .pageNotAnInteger := by
    unfold Paginator.page
    rw [hval]
  have h1 := page_int_ok (Paginator.mk items 3) 1 (le_refl 1)
    (by exact_mod_cast num_pages_pos items)
  rw [paginate_eq_match, hpage, h1]
  rw [pageItems_eq]
  norm_num

/-- In-range page number: that page is delivered, holding exactly the slice
`items[(p-1)*3 : p*3]`. -/
theorem paginate_valid {α : Type} (items : List α) (p : Nat) (h1 : 1 ≤ p)
    (h2 : p ≤ (Paginator.mk items 3).num_pages) :
    post_list_paginate items (.int (p : Int))
      = .ok ⟨p, (items.drop ((p - 1) * 3)).take 3⟩ := by
  have hpage := page_int_ok (Paginator.mk items 3) (p : Int)
    (by exact_mod_cast h1) (by exact_mod_cast h2)
  rw [paginate_eq_match, hpage]
  simp [pageItems_eq]

/-- C1: for every ordered item sequence and every page token that parses as a
positive integer `p` exceeding the total number of pages, the pagination step
of `post_list` delivers the last page (no error is raised), and whenever there
is more than one page the delivered page is not page 1. -/
theorem C1_overflow_returns_last_page (α : Type) (items : List α) (s : String) (p : Int)
    (hparse : pyParseInt? s = some p) (hpos : 1 ≤ p)
    (hover : ((Paginator.mk items 3).num_pages : Int) < p) :
    post_list_paginate items (.str s)
      = .ok ⟨(Paginator.mk items 3).num_pages,
             (Paginator.mk items 3).pageItems (Paginator.mk items 3).num_pages⟩
    ∧ (1 < (Paginator.mk items 3).num_pages →
        ∀ r : PageResult α, post_list_paginate items (.str s) = .ok r → r.number ≠ 1) := by
  have hmain := paginate_over items s p hparse hover
  refine ⟨hmain, ?_⟩
  intro hgt r hr
  rw [hmain] at hr
  cases hr
  simpa using (by omega : (Paginator.mk items 3).num_pages ≠ 1)

theorem C1_overflow_returns_last_page_witness :
    pyParseInt? "5" = some 5
    ∧ (1 : Int) ≤ 5
    ∧ (((Paginator.mk [0, 1, 2, 3, 4, 5, 6] 3).num_pages : Int) < 5)
    ∧ post_list_paginate [0, 1, 2, 3, 4, 5, 6] (.str "5") = .ok ⟨3, [6]⟩ := by
  have h := C1_overflow_returns_last_page Nat [0, 1, 2, 3, 4, 5, 6] "5" 5
    (by decide) (by decide) (by decide)
  exact ⟨by decide, by decide, by decide, h.1.trans rfl⟩

/-- C2: for every page token that does not parse as an integer (non-numeric or
empty), the pagination step of `post_list` delivers page 1 (the first three
items) and raises no error. -/
theorem C2_non_numeric_returns_page_1 (α : Type) (items : List α) (s : String)
    (hparse : pyParseInt? s = none) :
    post_list_paginate items (.str s) = .ok ⟨1, items.take 3⟩ :=
  paginate_nonint items s hparse

theorem C2_non_numeric_returns_page_1_witness :
    pyParseInt? "x" = none
    ∧ post_list_paginate [0, 1, 2, 3, 4, 5, 6] (.str "x") = .ok ⟨1, [0, 1, 2]⟩
    ∧ pyParseInt? "" = none
    ∧ post_list_paginate [0, 1, 2] (.str "") = .ok ⟨1, [0, 1, 2]⟩ := by
  have hx := C2_non_numeric_returns_page_1 Nat [0, 1, 2, 3, 4, 5, 6] "x" (by decide)
  have he := C2_non_numeric_returns_page_1 Nat [0, 1, 2] "" (by decide)
  exact ⟨by decide, hx.trans rfl, by decide, he.trans rfl⟩

/-- C3: for every valid page number `p` in `[1, total_pages]` the pagination
step (page size fixed at 3) delivers exactly the items at offsets
`(p-1)*3 .. p*3-1`; with 7 items, page 1 holds items 0-2, page 2 holds items
3-5, page 3 holds item 6, requesting `"5"` yields page 3 and requesting `"x"`
yields page 1. -/
theorem C3_valid_page_slices (α : Type) (items : List α) :
    (∀ p : Nat, 1 ≤ p → p ≤ (Paginator.mk items 3).num_pages →
      post_list_paginate items (.int (p : Int))
        = .ok ⟨p, (items.drop ((p - 1) * 3)).take 3⟩)
    ∧ (items.length = 7 →
        post_list_paginate items (.int 1) = .ok ⟨1, items.take 3⟩
      ∧ post_list_paginate items (.int 2) = .ok ⟨2, (items.drop 3).take 3⟩
      ∧ post_list_paginate items (.int 3) = .ok ⟨3, (items.drop 6).take 3⟩
      ∧ post_list_paginate items (.str "5") = .ok ⟨3, (items.drop 6).take 3⟩
      ∧ post_list_paginate items (.str "x") = .ok ⟨1, items.take 3⟩) := by
  constructor
  · intro p h1 h2
    exact paginate_valid items p h1 h2
  · intro hlen
    have hnp : (Paginator.mk items 3).num_pages = 3 := by
      simp [Paginator.num_pages, Paginator.count, hlen]
    have hp1 := paginate_valid items 1 (by omega) (by omega)
    have hp2 := paginate_valid items 2 (by omega) (by omega)
    have hp3 := paginate_valid items 3 (by omega) (by omega)
    have h5 : post_list_paginate items (.str "5") = .ok ⟨3, (items.drop 6).take 3⟩ := by
      have hover := paginate_over items "5" 5 (by decide) (by rw [hnp]; decide)
      rw [hover, hnp, pageItems_eq]
      norm_num
    have hx := paginate_nonint items "x" (by decide)
    refine ⟨?_, ?_, ?_, h5, hx⟩
    · simpa using hp1
    · simpa using hp2
    · simpa using hp3

theorem C3_valid_page_slices_witness :
    (1 ≤ 2 ∧ 2 ≤ (Paginator.mk [0, 1, 2, 3, 4, 5, 6] 3).num_pages
      ∧ post_list_paginate [0, 1, 2, 3, 4, 5, 6] (.int (2 : Nat))
          = .ok ⟨2, ([0, 1, 2, 3, 4, 5, 6].drop ((2 - 1) * 3)).take 3⟩)
    ∧ ([0, 1, 2, 3, 4, 5, 6].length = 7
      ∧ post_list_paginate [0, 1, 2, 3, 4, 5, 6] (.str "5")
          = .ok ⟨3, ([0, 1, 2, 3, 4, 5, 6].drop 6).take 3⟩) := by
  have h := C3_valid_page_slices Nat [0, 1, 2, 3, 4, 5, 6]
  exact ⟨⟨by decide, by decide, h.1 2 (by decide) (by decide)⟩,
    by decide, ((h.2 (by decide)).2.2.2).1⟩

/-! ## `src/authuser/models.py`: `CustomUserManager`

`_create_user` raises `ValueError` when `email` is falsy (None or the empty
string), otherwise normalizes the email, builds the model instance with the
keyword `extra_fields`, hashes the password with `set_password`, and saves
the record.  `create_user` / `create_superuser` call `setdefault` on
`extra_fields` before delegating. -/

/-- Split a character list at the LAST occurrence of `c`
(Python `rsplit(c, 1)` succeeding only when `c` occurs). -/
def rsplitLast (l : List Char) (c : Char) : Option (List Char × List Char) :=
  match l.reverse.findIdx? (fun x => x = c) with
  | none => none
  | some i => some (l.take (l.length - 1 - i), l.drop (l.length - i))

/-- `BaseUserManager.normalize_email`: strip, split at the last `@`; when an
`@` is present, lower-case the domain part; otherwise (the `rsplit`
unpacking raises `ValueError`) the email is returned unchanged. -/
def normalize_email (email : String) : String :=
  match rsplitLast (pyStrip email.toList) '@' with
  | none => email
  | some (name, dom) => String.mk name ++ "@" ++ String.mk (dom.map Char.toLower)

/-- The keyword arguments relevant to the user factories; a field is `none`
when the caller did not supply it. -/
structure ExtraFields where
  is_staff : Option Bool
  is_superuser : Option Bool
deriving Repr, DecidableEq

/-- Python `dict.setdefault('is_staff', b)`. -/
def ExtraFields.setdefault_staff (e : ExtraFields) (b : Bool) : ExtraFields :=
  match e.is_staff with
  | some _ => e
  | none => ⟨some b, e.is_superuser⟩

/-- Python `dict.setdefault('is_superuser', b)`. -/
def ExtraFields.setdefault_superuser (e : ExtraFields) (b : Bool) : ExtraFields :=
  match e.is_superuser with
  | some _ => e
  | none => ⟨e.is_staff, some b⟩

/-- A persisted user record; `password` holds the hash produced by
`set_password`. -/
structure User where
  email : String
  password : String
  is_staff : Bool
  is_superuser : Bool
deriving Repr, DecidableEq

/-- Django `make_password`: `set_password(None)` stores an unusable password,
any string (the empty string included) is hashed without further checks. -/
def make_password (raw : Option String) : String :=
  match raw with
  | none => "!unusable"
  | some s => "pbkdf2_sha256$" ++ s

/-- Errors raised by the user factories: `ValueError` from `_create_user`,
and the database `IntegrityError` (the spec's `DuplicateKeyError`) at
`user.save()` when a unique column collides. -/
inductive IdentityError where
  | valueError (msg : String)
  | duplicateKeyError
deriving Repr, DecidableEq

/-- `CustomUserManager._create_user`: reject a falsy email, else normalize,
build the instance (`is_staff` / `is_superuser` default to the model
defaults `False` when absent from `extra_fields`), hash the password and
save to the user table.  `user.save()` enforces the `unique=True` email
column of the `User` model: inserting a record whose email is already in
the table raises, and nothing is persisted.  (The `username` column is
likewise declared unique, but these factories never set it and the embedded
`User` carries only the fields they touch.) -/
def _create_user (db : List User) (email : Option String) (password : Option String)
    (extra : ExtraFields) : Except IdentityError (User × List User) :=
  match email with
  | none => .error (.valueError "Valid e-mail address not provided!")
  | some e =>
    if e = "" then .error (.valueError "Valid e-mail address not provided!")
    else
      let user : User :=
        ⟨normalize_email e, make_password password,
         extra.is_staff.getD false, extra.is_superuser.getD false⟩
      if db.any (fun v => decide (v.email = user.email)) then
        .error .duplicateKeyError
      else
        .ok (user, db ++ [user])

/-- `CustomUserManager.create_user`. -/
def create_user (db : List User) (email : Option String) (password : Option String)
    (extra : ExtraFields) : Except IdentityError (User × List User) :=
  _create_user db email password
    ((extra.setdefault_staff false).setdefault_superuser false)

/-- `CustomUserManager.create_superuser`. -/
def create_superuser (db : List User) (email : Option String) (password : Option String)
    (extra : ExtraFields) : Except IdentityError (User × List User) :=
  _create_user db email password
    ((extra.setdefault_staff true).setdefault_superuser true)

theorem _create_user_none (db : List User) (password : Option String)
    (extra : ExtraFields) :
    _create_user db none password extra
      = .error (.valueError "Valid e-mail address not provided!") := by
  rfl

theorem _create_user_some (db : List User) (e : String) (password : Option String)
    (extra : ExtraFields) :
    _create_user db (some e) password extra
      = if e = "" then .error (.valueError "Valid e-mail address not provided!")
        else if db.any (fun v => decide (v.email = normalize_email e)) then
          .error .duplicateKeyError
        else
          .ok (⟨normalize_email e, make_password password,
                extra.is_staff.getD false, extra.is_superuser.getD false⟩,
               db ++ [⟨normalize_email e, make_password password,
                extra.is_staff.getD false, extra.is_superuser.getD false⟩]) := by
  rfl

/-- The user table after a factory call: unchanged when the call raised. -/
def usersAfter (db : List User) (r : Except IdentityError (User × List User)) :
    List User :=
  match r with
  | .ok (_, dbNew) => dbNew
  | .error _ => db

/-- C4 as stated is false: `create_superuser` uses `setdefault`, so a
caller-supplied `is_staff = false` in `extra_fields` survives into the
returned record. -/
theorem C4_forced_flags_counterexample :
    (create_superuser [] (some "admin@example.com") (some "pw")
        ⟨some false, none⟩).map (fun r => r.1.is_staff)
      = .ok false := by
  rfl

/-- C4 (amended): `create_superuser` defaults `is_staff` and `is_superuser`
to `true`; whenever the caller supplies neither flag in `extra_fields`, the
returned user record has both set to `true`. -/
theorem C4_superuser_default_flags (db : List User) (email password : Option String)
    (extra : ExtraFields) (u : User) (dbNew : List User)
    (hok : create_superuser db email password extra = .ok (u, dbNew))
    (hs : extra.is_staff = none) (hsu : extra.is_superuser = none) :
    u.is_staff = true ∧ u.is_superuser = true := by
  have hset : (extra.setdefault_staff true).setdefault_superuser true
      = ⟨some true, some true⟩ := by
    simp [ExtraFields.setdefault_staff, ExtraFields.setdefault_superuser, hs, hsu]
  unfold create_superuser at hok
  rw [hset] at hok
  rcases email with _ | e
  · rw [_create_user_none] at hok
    exact absurd hok (by simp)
  · rw [_create_user_some] at hok
    by_cases he : e = ""
    · rw [if_pos he] at hok
      exact absurd hok (by simp)
    · rw [if_neg he] at hok
      by_cases hdup : db.any (fun v => decide (v.email = normalize_email e)) = true
      · rw [if_pos hdup] at hok
        exact absurd hok (by simp)
      · rw [if_neg hdup] at hok
        injection hok with h1
        injection h1 with h2 h3
        subst h2
        exact ⟨rfl, rfl⟩

theorem C4_superuser_default_flags_witness :
    ∃ u dbNew,
      create_superuser [] (some "admin@example.com") (some "pw") ⟨none, none⟩
        = .ok (u, dbNew)
      ∧ u.is_staff = true ∧ u.is_superuser = true := by
  obtain ⟨u, dbNew, hok⟩ :
      ∃ u dbNew, create_superuser [] (some "admin@example.com") (some "pw")
        ⟨none, none⟩ = .ok (u, dbNew) := ⟨_, _, rfl⟩
  exact ⟨u, dbNew, hok,
    C4_superuser_default_flags [] (some "admin@example.com") (some "pw")
      ⟨none, none⟩ u dbNew hok rfl rfl⟩

/-- C9: `create_user` with a missing or empty email raises (`ValueError` in
the source, the validation failure of the spec) and leaves the user table
unchanged. -/
theorem C9_empty_email_rejected (db : List User) (password : Option String)
    (extra : ExtraFields) (email : Option String)
    (hempty : email = none ∨ email = some "") :
    create_user db email password extra
      = .error (.valueError "Valid e-mail address not provided!")
    ∧ usersAfter db (create_user db email password extra) = db := by
  have herr : create_user db email password extra
      = .error (.valueError "Valid e-mail address not provided!") := by
    rcases hempty with h | h <;> subst h <;> rfl
  exact ⟨herr, by rw [herr]; rfl⟩

theorem C9_empty_email_rejected_witness :
    (create_user [] none (some "pw") ⟨none, none⟩
        = .error (.valueError "Valid e-mail address not provided!")
      ∧ usersAfter [] (create_user [] none (some "pw") ⟨none, none⟩) = [])
    ∧ (create_user [] (some "") (some "pw") ⟨none, none⟩
        = .error (.valueError "Valid e-mail address not provided!")
      ∧ usersAfter [] (create_user [] (some "") (some "pw") ⟨none, none⟩) = []) :=
  ⟨C9_empty_email_rejected [] (some "pw") ⟨none, none⟩ none (Or.inl rfl),
   C9_empty_email_rejected [] (some "pw") ⟨none, none⟩ (some "") (Or.inr rfl)⟩

/-- A user record with its password hash blanked, for comparing factory
outcomes across password values. -/
def scrubUser (u : User) : User :=
  ⟨u.email, "", u.is_staff, u.is_superuser⟩

/-- A factory outcome with every password hash blanked: what remains is the
error raised, or the record and table up to the stored hashes. -/
def scrubResult (r : Except IdentityError (User × List User)) :
    Except IdentityError (User × List User) :=
  r.map (fun p => (scrubUser p.1, p.2.map scrubUser))

/-- C10: only the email is validated and the password goes straight through
the hashing step with no check of its own: whenever the non-empty email is
not already taken in the table, `create_user` succeeds for every password
value (`None` and the empty string included), storing its hash; and for any
two password values the outcome is identical up to the stored hashes — the
password never decides success or failure. -/
theorem C10_password_unchecked (db : List User) (email : String)
    (password : Option String) (extra : ExtraFields) (hne : email ≠ "") :
    (db.any (fun v => decide (v.email = normalize_email email)) = false →
      ∃ u dbNew, create_user db (some email) password extra = .ok (u, dbNew)
        ∧ u.password = make_password password)
    ∧ ∀ password2 : Option String,
        scrubResult (create_user db (some email) password extra)
          = scrubResult (create_user db (some email) password2 extra) := by
  constructor
  · intro hfresh
    unfold create_user
    rw [_create_user_some, if_neg hne, if_neg (by rw [hfresh]; exact Bool.false_ne_true)]
    exact ⟨_, _, rfl, rfl⟩
  · intro password2
    have key : ∀ pw : Option String,
        create_user db (some email) pw extra
          = if db.any (fun v => decide (v.email = normalize_email email)) then
              .error .duplicateKeyError
            else
              .ok (⟨normalize_email email, make_password pw,
                    ((extra.setdefault_staff false).setdefault_superuser false).is_staff.getD false,
                    ((extra.setdefault_staff false).setdefault_superuser false).is_superuser.getD false⟩,
                   db ++ [⟨normalize_email email, make_password pw,
                    ((extra.setdefault_staff false).setdefault_superuser false).is_staff.getD false,
                    ((extra.setdefault_staff false).setdefault_superuser false).is_superuser.getD false⟩]) := by
      intro pw
      unfold create_user
      rw [_create_user_some, if_neg hne]
    rw [key password, key password2]
    by_cases hdup : db.any (fun v => decide (v.email = normalize_email email)) = true
    · rw [if_pos hdup, if_pos hdup]
    · rw [if_neg hdup, if_neg hdup]
      simp [scrubResult, scrubUser, Except.map, List.map_append]

theorem C10_password_unchecked_witness :
    (List.any [(⟨"x@y.com", "h", false, false⟩ : User)]
        (fun v => decide (v.email = normalize_email "a@b.com")) = false
      ∧ ∃ u dbNew,
          create_user [⟨"x@y.com", "h", false, false⟩] (some "a@b.com") none ⟨none, none⟩
            = .ok (u, dbNew)
          ∧ u.password = make_password none)
    ∧ scrubResult
        (create_user [⟨"x@y.com", "h", false, false⟩] (some "a@b.com") none ⟨none, none⟩)
      = scrubResult
        (create_user [⟨"x@y.com", "h", false, false⟩] (some "a@b.com") (some "") ⟨none, none⟩) := by
  have h := C10_password_unchecked [⟨"x@y.com", "h", false, false⟩] "a@b.com" none
    ⟨none, none⟩ (by decide)
  exact ⟨⟨by decide, h.1 (by decide)⟩, h.2 (some "")⟩

/-! ## `src/blog/views.py`: content model and views

The `Post` and `Comment` models and the two forms live in `blog/models.py`
and `blog/forms.py`, which are not part of the captured sources; only the
fields the views touch are represented, and the form-validation rules and
the `active` default are modelled from the spec where noted. -/

/-- `Post.Status` enum: DRAFT | PUBLISHED. -/
inductive Status where
  | draft
  | published
deriving Repr, DecidableEq

/-- The fields of a `Post` record that the views read. -/
structure Post where
  id : Nat
  title : String
  slug : String
  status : Status
  publish_year : Nat
  publish_month : Nat
  publish_day : Nat
deriving Repr, DecidableEq

/-- Failures a view can end in instead of rendering: `Http404` from
`get_object_or_404`, `MultipleObjectsReturned` from `Model.get`,
`HttpResponseNotAllowed` from `require_POST`, and Python
`UnboundLocalError`. -/
inductive HttpError where
  | http404
  | multipleObjectsReturned
  | methodNotAllowed
  | unboundLocalError (name : String)
deriving Repr, DecidableEq

/-- `get_object_or_404(Post, id=post_id, status=Post.Status.PUBLISHED)`:
`Http404` on no match, `MultipleObjectsReturned` (not converted) on more
than one. -/
def get_object_or_404_by_id (db : List Post) (post_id : Nat) :
    Except HttpError Post :=
  match db.filter (fun p => decide (p.id = post_id ∧ p.status = Status.published)) with
  | [p] => .ok p
  | [] => .error .http404
  | _ => .error .multipleObjectsReturned

/-- The four components of a post's natural key, as filtered by the
`post_detail` query (`slug`, `publish__year`, `publish__month`,
`publish__day`). -/
def natural_key_matches (year month day : Nat) (slug : String) (p : Post) : Prop :=
  p.slug = slug ∧ p.publish_year = year ∧ p.publish_month = month
    ∧ p.publish_day = day

instance (year month day : Nat) (slug : String) (p : Post) :
    Decidable (natural_key_matches year month day slug p) := by
  unfold natural_key_matches
  infer_instance

/-- The lookup of `post_detail` (`src/blog/views.py` lines 44-50):
`get_object_or_404(Post, status=PUBLISHED, slug=post, publish__year=year,
publish__month=month, publish__day=day)`. -/
def post_detail_get (db : List Post) (year month day : Nat) (slug : String) :
    Except HttpError Post :=
  match db.filter (fun p =>
      decide (p.status = Status.published ∧ natural_key_matches year month day slug p)) with
  | [p] => .ok p
  | [] => .error .http404
  | _ => .error .multipleObjectsReturned

/-- C8: a post matching all four natural-key components but stored as DRAFT
makes the detail lookup fail with 404 (whenever no PUBLISHED post matches
the key, the lookup 404s), and a successful lookup returns a post that is
PUBLISHED and matches the key exactly. -/
theorem C8_detail_requires_published (db : List Post) (year month day : Nat)
    (slug : String) :
    ((∀ q ∈ db, natural_key_matches year month day slug q → q.status = Status.draft) →
      post_detail_get db year month day slug = .error .http404)
    ∧ (∀ q, post_detail_get db year month day slug = .ok q →
        q.status = Status.published ∧ natural_key_matches year month day slug q) := by
  constructor
  · intro hdraft
    have hnil : db.filter (fun p =>
        decide (p.status = Status.published ∧ natural_key_matches year month day slug p))
        = [] := by
      rw [List.filter_eq_nil_iff]
      intro p hp
      simp only [decide_eq_true_eq, not_and]
      intro hpub hkey
      rw [hdraft p hp hkey] at hpub
      cases hpub
    unfold post_detail_get
    rw [hnil]
  · intro q hq
    unfold post_detail_get at hq
    rcases hfil : db.filter (fun p =>
        decide (p.status = Status.published ∧ natural_key_matches year month day slug p))
      with _ | ⟨p, _ | _⟩
    · rw [hfil] at hq
      cases hq
    · rw [hfil] at hq
      injection hq with hpq
      have hp : p ∈ db.filter (fun r =>
          decide (r.status = Status.published ∧ natural_key_matches year month day slug r)) := by
        rw [hfil]
        exact List.mem_singleton_self p
      exact hpq ▸ of_decide_eq_true (List.mem_filter.mp hp).2
    · rw [hfil] at hq
      cases hq

theorem C8_detail_requires_published_witness :
    post_detail_get
      [⟨1, "t", "my-slug", Status.draft, 2024, 5, 2⟩] 2024 5 2 "my-slug"
      = .error .http404 :=
  (C8_detail_requires_published
    [⟨1, "t", "my-slug", Status.draft, 2024, 5, 2⟩] 2024 5 2 "my-slug").1
    (by decide)

/-! ### `post_share` (`src/blog/views.py` lines 80-106)

The view retrieves the post, and on POST binds `EmailPostForm(request.POST)`;
when the form is valid it sends one mail and assigns `sent = True`.  `sent`
is assigned on no other path, yet the context dictionary reads `sent`
unconditionally — on GET and on an invalid POST the view raises
`UnboundLocalError` instead of rendering. -/

inductive Method where
  | get
  | post
deriving Repr, DecidableEq

/-- Modelled from the spec: `EmailPostForm` (`blog/forms.py` is not under
src/).  The spec says the share form validates "recipient email, sender
name, optional comment text". -/
structure EmailPostForm where
  to_email : String
  name : String
  comments : String
deriving Repr, DecidableEq

/-- Modelled from the spec: `EmailPostForm` validity — a non-empty sender
name, a recipient address containing `@`, comment text optional. -/
def EmailPostForm.is_valid (f : EmailPostForm) : Bool :=
  decide (f.name ≠ "" ∧ f.to_email ≠ "" ∧ '@' ∈ f.to_email.toList)

/-- Modelled from the spec: `Post.get_absolute_url` (`blog/models.py` is not
under src/); the spec only says the mail body references "the post's
absolute URL" built from the natural key. -/
def Post.get_absolute_url (p : Post) : String :=
  "/blog/" ++ toString p.publish_year ++ "/" ++ toString p.publish_month
    ++ "/" ++ toString p.publish_day ++ "/" ++ p.slug ++ "/"

/-- A mail handed to `send_mail`. -/
structure Mail where
  subject : String
  message : String
  from_email : String
  recipient_list : List String
deriving Repr, DecidableEq

/-- The context rendered by `post_share` on success. -/
structure ShareRender where
  post : Post
  form : EmailPostForm
  sent : Bool
deriving Repr, DecidableEq

/-- `post_share`: fetch the post (404-filtered to PUBLISHED), dispatch on
the method.  The second component collects the mails dispatched through
`send_mail` (empty when the view failed before sending).  The local `sent`
is assigned only in the valid-POST branch; every other path reaches the
context dictionary with `sent` unbound and raises `UnboundLocalError`. -/
def post_share (db : List Post) (method : Method) (formData : EmailPostForm)
    (post_id : Nat) : Except HttpError ShareRender × List Mail :=
  match get_object_or_404_by_id db post_id with
  | .error e => (.error e, [])
  | .ok post =>
    match method with
    | .post =>
      if formData.is_valid then
        let mail : Mail :=
          ⟨formData.name ++ " recommends you read " ++ post.title,
           "Read " ++ post.title ++ " at " ++ post.get_absolute_url
             ++ "\n\n " ++ formData.name ++ "\x27s comments: " ++ formData.comments,
           "cmwolfe.dev@gmail.com", [formData.to_email]⟩
        (.ok ⟨post, formData, true⟩, [mail])
      else
        (.error (.unboundLocalError "sent"), [])
    | .get =>
        (.error (.unboundLocalError "sent"), [])

/-- A published post used as concrete test data. -/
def samplePost : Post :=
  ⟨1, "A Title", "a-title", Status.published, 2024, 5, 2⟩

/-- C5 describes the intended behaviour (render the empty form on GET,
redisplay with errors on invalid POST); the code instead raises
`UnboundLocalError` on both paths because `sent` is never initialised.
Evaluated at a one-post store: a GET and an invalid POST both fail with
`UnboundLocalError` on `sent` (no mail is sent on either path). -/
theorem C5_share_unbound_local :
    post_share [samplePost] .get ⟨"", "", ""⟩ 1
      = (.error (.unboundLocalError "sent"), [])
    ∧ post_share [samplePost] .post ⟨"", "", ""⟩ 1
      = (.error (.unboundLocalError "sent"), []) := by
  constructor <;> rfl

/-! ### `post_comment` (`src/blog/views.py` lines 109-127)

`@require_POST` answers 405 to any non-POST request before the view body
runs; the body fetches the post (404-filtered to PUBLISHED), validates
`CommentForm`, and on success saves exactly one comment bound to the
post. -/

/-- A comment record; `post` is the id of the owning post (`none` before
`comment.post = post` is assigned). -/
structure Comment where
  name : String
  email : String
  body : String
  post : Option Nat
  active : Bool
deriving Repr, DecidableEq

/-- Modelled from the spec: `CommentForm` (`blog/forms.py` is not under
src/); the spec says comment validation requires name, email format and a
non-empty body. -/
structure CommentFormData where
  name : String
  email : String
  body : String
deriving Repr, DecidableEq

/-- Modelled from the spec: `CommentForm` validity. -/
def CommentFormData.is_valid (f : CommentFormData) : Bool :=
  decide (f.name ≠ "" ∧ f.email ≠ "" ∧ '@' ∈ f.email.toList ∧ f.body ≠ "")

/-- Modelled from the spec: `form.save(commit=False)` builds an unsaved
`Comment` from the form fields; the `Comment.active` field defaults to
`true` (the spec's moderation flag, "default true"). -/
def CommentFormData.save_no_commit (f : CommentFormData) : Comment :=
  ⟨f.name, f.email, f.body, none, true⟩

/-- The context rendered by `post_comment`. -/
structure CommentRender where
  post : Post
  comment : Option Comment
deriving Repr, DecidableEq

/-- `post_comment` with the comment store threaded through: the result and
the store after the request.  `require_POST` rejects non-POST methods
before anything else runs. -/
def post_comment (posts : List Post) (store : List Comment) (method : Method)
    (formData : CommentFormData) (post_id : Nat) :
    Except HttpError CommentRender × List Comment :=
  match method with
  | .get => (.error .methodNotAllowed, store)
  | .post =>
    match get_object_or_404_by_id posts post_id with
    | .error e => (.error e, store)
    | .ok post =>
      if formData.is_valid then
        let c : Comment := { formData.save_no_commit with post := some post.id }
        (.ok ⟨post, some c⟩, store ++ [c])
      else
        (.ok ⟨post, none⟩, store)

theorem post_comment_post_eq (posts : List Post) (store : List Comment)
    (formData : CommentFormData) (post_id : Nat) :
    post_comment posts store .post formData post_id =
      match get_object_or_404_by_id posts post_id with
      | .error e => (.error e, store)
      | .ok post =>
        if formData.is_valid then
          (.ok ⟨post, some { formData.save_no_commit with post := some post.id }⟩,
           store ++ [{ formData.save_no_commit with post := some post.id }])
        else (.ok ⟨post, none⟩, store) := by
  rfl

/-- C6: a valid comment on a PUBLISHED post appends exactly one new comment
to the store, bound to that post with `active = true`; an invalid
submission leaves the store exactly as it was (nothing partial is ever
written). -/
theorem C6_comment_persistence (posts : List Post) (store : List Comment)
    (formData : CommentFormData) (post_id : Nat) (post : Post)
    (hpost : get_object_or_404_by_id posts post_id = .ok post) :
    (formData.is_valid = true →
      post_comment posts store .post formData post_id
        = (.ok ⟨post, some ⟨formData.name, formData.email, formData.body,
                            some post.id, true⟩⟩,
           store ++ [⟨formData.name, formData.email, formData.body,
                      some post.id, true⟩]))
    ∧ (formData.is_valid = false →
      post_comment posts store .post formData post_id = (.ok ⟨post, none⟩, store)) := by
  constructor
  · intro hvalid
    rw [post_comment_post_eq, hpost]
    simp only [hvalid, if_true]
    rfl
  · intro hinvalid
    rw [post_comment_post_eq, hpost]
    simp only [hinvalid, Bool.false_eq_true, if_false]

theorem C6_comment_persistence_witness :
    get_object_or_404_by_id [samplePost] 1 = .ok samplePost
    ∧ CommentFormData.is_valid ⟨"Ann", "ann@example.com", "Nice post"⟩ = true
    ∧ post_comment [samplePost] [] .post ⟨"Ann", "ann@example.com", "Nice post"⟩ 1
        = (.ok ⟨samplePost, some ⟨"Ann", "ann@example.com", "Nice post", some 1, true⟩⟩,
           [⟨"Ann", "ann@example.com", "Nice post", some 1, true⟩]) := by
  have h := C6_comment_persistence [samplePost] [] ⟨"Ann", "ann@example.com", "Nice post"⟩
    1 samplePost (by rfl)
  exact ⟨by rfl, by decide, (h.1 (by decide)).trans (by rfl)⟩

/-- C7: every GET request to `post_comment` is answered with
method-not-allowed by `require_POST`, the comment store untouched and the
post never fetched. -/
theorem C7_comment_get_rejected (posts : List Post) (store : List Comment)
    (formData : CommentFormData) (post_id : Nat) :
    post_comment posts store .get formData post_id = (.error .methodNotAllowed, store) := by
  rfl

end PyDrops
